import Mathlib

/-!
Verification of the TrackToss track-queue review engine.

The definitions below are a shallow embedding of the core of the repository:

* `parseSpotifyError` and `getTracks` embed the functions of the same name in
  `src/services/spotifyApi.ts`;
* `loadInitialTracks`, `loadMoreTracks`, `nextTrack`, `handleKeep`,
  `handleDiscard`, `handleRetry` and `onMounted` embed the functions of the
  same name in `src/components/SongCleaner.vue`.

Remote calls are made explicit: every fallible call site receives the call's
resolved outcome as an argument (`Except RemoteFailure _`), and each engine
operation returns, next to the new queue state, the list of API calls it
issued, so that theorems can speak about which remote requests happen.
-/

namespace TrackToss

/-- A Spotify track, reduced to the identifier that the queue engine moves
between its containers (the engine never inspects any other field). -/
structure Track where
  id : Nat
deriving DecidableEq

/-- The error taxonomy of the classifier (the `type` field of `SpotifyError`
in `src/types/spotify.ts`). -/
inductive ErrorType
  | rate_limit
  | authentication
  | permission
  | network
  | unknown
deriving DecidableEq

/-- The structured error produced by `parseSpotifyError`.  `retryAfter` is
populated only in the rate-limit case, mirroring the source. -/
structure SpotifyError where
  type : ErrorType
  message : String
  retryAfter : Option Nat := none
  status : Nat
deriving DecidableEq

/-- The body of a failed HTTP response, as far as `parseSpotifyError` can
observe it: `absent` models a missing or empty `responseText` (falsy in JS),
`parsed m` models a JSON body whose optional `error.message` field is `m`,
and `malformed` models a body on which `JSON.parse` throws. -/
inductive ResponseBody
  | absent
  | parsed (message : Option String)
  | malformed
deriving DecidableEq

/-- A failed HTTP response as consumed by `parseSpotifyError`: the status
code, the status text, the (already numerically parsed) `Retry-After`
header when present, and the body. -/
structure HttpFailure where
  status : Nat
  statusText : String
  retryAfter : Option Nat
  body : ResponseBody
deriving DecidableEq

/-- JavaScript `a || b` on strings: the empty string is falsy. -/
def jsStringOr (a b : String) : String :=
  if a = "" then b else a

/-- The initial value of `errorMessage` in `parseSpotifyError`. -/
def defaultErrorMessage : String := "Unknown error occurred"

/-- The `errorMessage` computed by the `try`/`catch` block at the top of
`parseSpotifyError`: the body's `error.message` when the body parses (empty
or missing messages fall back to the default, via `||`), the status text
when parsing throws, and the default when there is no body text. -/
def extractMessage (r : HttpFailure) : String :=
  match r.body with
  | .absent => defaultErrorMessage
  | .parsed m =>
      match m with
      | some msg => jsStringOr msg defaultErrorMessage
      | none => defaultErrorMessage
  | .malformed => jsStringOr r.statusText defaultErrorMessage

/-- Embeds `parseSpotifyError` from `src/services/spotifyApi.ts`.  The
`switch` on the status code becomes a chain of equality tests. -/
def parseSpotifyError (r : HttpFailure) : SpotifyError :=
  let errorMessage := extractMessage r
  if r.status = 429 then
    { type := .rate_limit
      message := "Rate limit exceeded. Please wait before trying again."
      retryAfter := some (r.retryAfter.getD 60)
      status := r.status }
  else if r.status = 401 then
    { type := .authentication
      message := "Authentication failed. Please log in again."
      status := r.status }
  else if r.status = 403 then
    { type := .permission
      message := "You don\x27t have permission to perform this action."
      status := r.status }
  else if r.status = 404 then
    { type := .unknown
      message := "Resource not found."
      status := r.status }
  else if r.status = 500 ∨ r.status = 502 ∨ r.status = 503 ∨ r.status = 504 then
    { type := .network
      message := "Spotify service is temporarily unavailable. Please try again later."
      status := r.status }
  else
    { type := .unknown
      message := errorMessage
      status := r.status }

/-! ## The remote track source and `getTracks` -/

/-- One page of a remote paginated listing: `items` and the authoritative
`total` of the collection. -/
structure RemotePage where
  items : List Track
  total : Nat
deriving DecidableEq

/-- A remote listing endpoint over a fixed remote collection, newest-first:
index 0 is the most recently added track.  A request with `limit` and
`offset` returns the tracks at remote indices `[offset, offset+limit)`
together with the collection's total size. -/
def listEndpoint (remote : List Track) (limit offset : Nat) : RemotePage :=
  { items := (remote.drop offset).take limit, total := remote.length }

/-- The reserved sentinel identifier for the "liked songs" collection. -/
def SPOTIFY_LIKED_SONGS_PLAYLIST_ID : String := "liked-songs"

/-- The remote universe `getTracks` runs against: the liked-songs collection
and one collection per playlist identifier, each a newest-first track list. -/
structure RemoteEnv where
  liked : List Track
  playlists : String → List Track

/-- The collection a playlist identifier addresses: the branch condition
`playlistId === SPOTIFY_LIKED_SONGS_PLAYLIST_ID` of `getTracks` (both
branches of the source perform the identical computation against their
respective endpoint). -/
def RemoteEnv.collection (env : RemoteEnv) (playlistId : String) : List Track :=
  if playlistId = SPOTIFY_LIKED_SONGS_PLAYLIST_ID then env.liked
  else env.playlists playlistId

/-- The result of `getTracks`, together with the `(limit, offset)` of every
listing request it issued, in order. -/
structure GetTracksResult where
  items : List Track
  total : Nat
  requests : List (Nat × Nat)
deriving DecidableEq

/-- Embeds `getTracks` from `src/services/spotifyApi.ts`.  In reverse mode it
first probes the endpoint with `limit=1` (no offset parameter, hence
offset 0) for the total, computes
`actualOffset = Math.max(0, total - limit - offset)`, fetches the page
there and reverses it; otherwise it fetches the page at `offset` as is. -/
def getTracks (env : RemoteEnv) (playlistId : String) (limit offset : Nat)
    (reverse : Bool) : GetTracksResult :=
  let remote := env.collection playlistId
  if reverse then
    let totalResponse := listEndpoint remote 1 0
    let total := totalResponse.total
    let actualOffset := (max 0 ((total : Int) - (limit : Int) - (offset : Int))).toNat
    let response := listEndpoint remote limit actualOffset
    { items := response.items.reverse
      total := response.total
      requests := [(1, 0), (limit, actualOffset)] }
  else
    let response := listEndpoint remote limit offset
    { items := response.items
      total := response.total
      requests := [(limit, offset)] }

/-! ## The queue & review engine (`SongCleaner.vue`) -/

/-- The constant `bufferSize` of `SongCleaner.vue`. -/
def bufferSize : Nat := 30

/-- The constant `minTracksThreshold` of `SongCleaner.vue` (the refill
threshold: load more when fewer than this many tracks remain queued). -/
def minTracksThreshold : Nat := 10

/-- What the component's `error` ref can hold besides `null`: a plain string
(`err.message` of an `Error` instance, or a fixed fallback text) or a
classified `SpotifyError`. -/
inductive DisplayError
  | msg (text : String)
  | classified (e : SpotifyError)
deriving DecidableEq

/-- A rejected remote call, as observed by a `catch` block: either the
classified `SpotifyError` thrown by `fetchWithAuth`, or a JavaScript `Error`
instance (e.g. a missing access token), of which only the message matters. -/
inductive RemoteFailure
  | classified (e : SpotifyError)
  | jsError (message : String)
deriving DecidableEq

/-- A successfully resolved `getTracks` call, as consumed by the engine:
the fetched items and the remote-reported total. -/
structure FetchOk where
  items : List Track
  total : Nat
deriving DecidableEq

/-- The API calls the engine can issue, recorded so that theorems can speak
about which remote requests an operation performs. -/
inductive ApiCall
  | getTracksCall (limit offset : Nat) (reverse : Bool)
  | removeTrackCall (trackId : Nat)
deriving DecidableEq

/-- The component's reactive queue state: the refs `tracks` (the pending
queue, front = current), `keptTracks`, `discardedTracks`,
`lastProcessedOffset`, `totalTracks` and `error`. -/
structure QueueState where
  tracks : List Track
  keptTracks : List Track
  discardedTracks : List Track
  lastProcessedOffset : Nat
  totalTracks : Nat
  error : Option DisplayError
deriving DecidableEq

/-- The refs' initial values, before `onMounted` runs. -/
def initState : QueueState :=
  { tracks := []
    keptTracks := []
    discardedTracks := []
    lastProcessedOffset := 0
    totalTracks := 0
    error := none }

/-- The message stored in `error` by a `catch` block that keeps the thrown
value when it is not an `Error` instance (`handleDiscard`). -/
def displayOf (f : RemoteFailure) : DisplayError :=
  match f with
  | .classified e => .classified e
  | .jsError m => .msg m

/-- Embeds `loadMoreTracks` from `SongCleaner.vue`: a background refill at
`offset`.  `fetchFn offset` is the resolved outcome of
`getTracks(playlistId, bufferSize, offset, true)`.  On success the items
are appended to the queue and a zero `totalTracks` is replaced by the
response's total; on failure the error is only logged and nothing changes. -/
def loadMoreTracks (fetchFn : Nat → Except RemoteFailure FetchOk)
    (offset : Nat) (s : QueueState) : QueueState × List ApiCall :=
  match fetchFn offset with
  | .ok r =>
      ({ s with
          tracks := s.tracks ++ r.items
          totalTracks := if s.totalTracks = 0 then r.total else s.totalTracks },
       [.getTracksCall bufferSize offset true])
  | .error _ => (s, [.getTracksCall bufferSize offset true])

/-- Embeds `loadInitialTracks` from `SongCleaner.vue`.  `fetch0` is the
resolved outcome of `getTracks(playlistId, bufferSize, 0, true)`.  On
success the queue is replaced by the fetched items, `totalTracks` is set
from the response and `lastProcessedOffset` to 0; on failure the error ref
is set (the thrown classified error is not an `Error` instance, so its
message is the fixed fallback text). -/
def loadInitialTracks (fetch0 : Except RemoteFailure FetchOk)
    (s : QueueState) : QueueState × List ApiCall :=
  match fetch0 with
  | .ok r =>
      ({ s with
          tracks := r.items
          totalTracks := r.total
          lastProcessedOffset := 0
          error := none },
       [.getTracksCall bufferSize 0 true])
  | .error f =>
      ({ s with
          error := some (.msg (match f with
            | .jsError m => m
            | .classified _ => "Failed to load tracks")) },
       [.getTracksCall bufferSize 0 true])

/-- Embeds `nextTrack` from `SongCleaner.vue`: shift the front of the queue
(no-op when empty), recompute `lastProcessedOffset` as
`keptTracks.length + discardedTracks.length`, and when fewer than
`minTracksThreshold` tracks remain, refill at the new offset. -/
def nextTrack (fetchFn : Nat → Except RemoteFailure FetchOk)
    (s : QueueState) : QueueState × List ApiCall :=
  match s.tracks with
  | [] => (s, [])
  | _ :: rest =>
      let s1 := { s with
        tracks := rest
        lastProcessedOffset := s.keptTracks.length + s.discardedTracks.length }
      if s1.tracks.length < minTracksThreshold then
        loadMoreTracks fetchFn s1.lastProcessedOffset s1
      else
        (s1, [])

/-- Embeds `handleKeep` from `SongCleaner.vue`: no-op on an empty queue,
otherwise push the current track onto `keptTracks` and advance. -/
def handleKeep (fetchFn : Nat → Except RemoteFailure FetchOk)
    (s : QueueState) : QueueState × List ApiCall :=
  match s.tracks with
  | [] => (s, [])
  | t :: _ => nextTrack fetchFn { s with keptTracks := s.keptTracks ++ [t] }

/-- Embeds `handleDiscard` from `SongCleaner.vue`: return before any remote
interaction when the queue is empty; otherwise clear the error ref, issue
the removal call for the current track, and only on success push the track
onto `discardedTracks` and advance; on failure record the error and leave
everything else as it was. `removal` is the resolved outcome of
`removeTrack(playlistId, currentTrack.id)`. -/
def handleDiscard (fetchFn : Nat → Except RemoteFailure FetchOk)
    (removal : Except RemoteFailure Unit) (s : QueueState) :
    QueueState × List ApiCall :=
  match s.tracks with
  | [] => (s, [])
  | t :: _ =>
      let s1 := { s with error := none }
      match removal with
      | .ok _ =>
          let r := nextTrack fetchFn
            { s1 with discardedTracks := s1.discardedTracks ++ [t] }
          (r.1, .removeTrackCall t.id :: r.2)
      | .error f =>
          ({ s1 with error := some (displayOf f) }, [.removeTrackCall t.id])

/-- Embeds `handleRetry` from `SongCleaner.vue`: clear the error ref and,
when the queue is non-empty, re-run `handleDiscard`. -/
def handleRetry (fetchFn : Nat → Except RemoteFailure FetchOk)
    (removal : Except RemoteFailure Unit) (s : QueueState) :
    QueueState × List ApiCall :=
  let s1 := { s with error := none }
  if s1.tracks.length > 0 then handleDiscard fetchFn removal s1 else (s1, [])

/-- The persisted snapshot (`CleaningState` of `src/types/cleaning.ts`), as
emitted by the component's deep watcher and passed back in as
`initialState`. -/
structure CleaningState where
  keptTracks : List Track
  discardedTracks : List Track
  queueTracks : List Track
  lastProcessedOffset : Nat
  totalTracks : Nat
deriving DecidableEq

/-- Embeds the `onMounted` hook of `SongCleaner.vue`: with a persisted
state, restore all five fields from the snapshot and refill at the restored
`lastProcessedOffset` when the restored queue is below the refill
threshold; with none, run the fresh initial load. -/
def onMounted (fetchFn : Nat → Except RemoteFailure FetchOk)
    (fetch0 : Except RemoteFailure FetchOk)
    (initialState : Option CleaningState) : QueueState × List ApiCall :=
  match initialState with
  | some st =>
      let s1 := { initState with
        keptTracks := st.keptTracks
        discardedTracks := st.discardedTracks
        tracks := st.queueTracks
        lastProcessedOffset := st.lastProcessedOffset
        totalTracks := st.totalTracks }
      if s1.tracks.length < minTracksThreshold then
        loadMoreTracks fetchFn s1.lastProcessedOffset s1
      else
        (s1, [])
  | none => loadInitialTracks fetch0 initState

/-- The engine running against a fixed remote collection: the refill
function `loadMoreTracks(offset)` resolves to the outcome of the modelled
`getTracks(playlistId, bufferSize, offset, true)` against `env`. -/
def worldFetch (env : RemoteEnv) (playlistId : String) :
    Nat → Except RemoteFailure FetchOk :=
  fun offset =>
    let r := getTracks env playlistId bufferSize offset true
    .ok { items := r.items, total := r.total }

/-! ## Frame lemmas for the refill path -/

theorem loadMoreTracks_fst_keptTracks (fetchFn : Nat → Except RemoteFailure FetchOk)
    (offset : Nat) (s : QueueState) :
    (loadMoreTracks fetchFn offset s).1.keptTracks = s.keptTracks := by
  unfold loadMoreTracks
  cases fetchFn offset <;> rfl

theorem loadMoreTracks_fst_discardedTracks (fetchFn : Nat → Except RemoteFailure FetchOk)
    (offset : Nat) (s : QueueState) :
    (loadMoreTracks fetchFn offset s).1.discardedTracks = s.discardedTracks := by
  unfold loadMoreTracks
  cases fetchFn offset <;> rfl

theorem loadMoreTracks_fst_lastProcessedOffset (fetchFn : Nat → Except RemoteFailure FetchOk)
    (offset : Nat) (s : QueueState) :
    (loadMoreTracks fetchFn offset s).1.lastProcessedOffset = s.lastProcessedOffset := by
  unfold loadMoreTracks
  cases fetchFn offset <;> rfl

theorem loadMoreTracks_fst_error (fetchFn : Nat → Except RemoteFailure FetchOk)
    (offset : Nat) (s : QueueState) :
    (loadMoreTracks fetchFn offset s).1.error = s.error := by
  unfold loadMoreTracks
  cases fetchFn offset <;> rfl

theorem nextTrack_fst_keptTracks (fetchFn : Nat → Except RemoteFailure FetchOk)
    (s : QueueState) :
    (nextTrack fetchFn s).1.keptTracks = s.keptTracks := by
  unfold nextTrack
  cases s.tracks with
  | nil => rfl
  | cons t rest =>
      dsimp only
      split
      · rw [loadMoreTracks_fst_keptTracks]
      · rfl

theorem nextTrack_fst_discardedTracks (fetchFn : Nat → Except RemoteFailure FetchOk)
    (s : QueueState) :
    (nextTrack fetchFn s).1.discardedTracks = s.discardedTracks := by
  unfold nextTrack
  cases s.tracks with
  | nil => rfl
  | cons t rest =>
      dsimp only
      split
      · rw [loadMoreTracks_fst_discardedTracks]
      · rfl

theorem nextTrack_fst_error (fetchFn : Nat → Except RemoteFailure FetchOk)
    (s : QueueState) :
    (nextTrack fetchFn s).1.error = s.error := by
  unfold nextTrack
  cases s.tracks with
  | nil => rfl
  | cons t rest =>
      dsimp only
      split
      · rw [loadMoreTracks_fst_error]
      · rfl

theorem nextTrack_fst_lastProcessedOffset (fetchFn : Nat → Except RemoteFailure FetchOk)
    (s : QueueState) (t : Track) (rest : List Track) (h : s.tracks = t :: rest) :
    (nextTrack fetchFn s).1.lastProcessedOffset =
      s.keptTracks.length + s.discardedTracks.length := by
  unfold nextTrack
  rw [h]
  dsimp only
  split
  · rw [loadMoreTracks_fst_lastProcessedOffset]
  · rfl

/-! ## C1 -/

/-- C1: when the remote removal call issued by `handleDiscard` resolves as a
classified error, the whole queue state is unchanged except that the
classified error is surfaced — in particular the track stays at the front of
`tracks`, `keptTracks` is untouched and the track is absent from
`discardedTracks` (which is untouched); the track is appended to
`discardedTracks` only when the removal succeeds. -/
theorem c1_discard_failure_preserves_queue
    (fetchFn : Nat → Except RemoteFailure FetchOk) (e : SpotifyError)
    (s : QueueState) (t : Track) (rest : List Track) (h : s.tracks = t :: rest) :
    handleDiscard fetchFn (.error (.classified e)) s =
      ({ s with error := some (.classified e) }, [.removeTrackCall t.id]) ∧
    (t ∉ s.discardedTracks →
      t ∉ (handleDiscard fetchFn (.error (.classified e)) s).1.discardedTracks) ∧
    (handleDiscard fetchFn (.ok ()) s).1.discardedTracks =
      s.discardedTracks ++ [t] := by
  refine ⟨?_, ?_, ?_⟩
  · cases s
    cases h
    rfl
  · intro hmem
    have hd : handleDiscard fetchFn (.error (.classified e)) s =
        ({ s with error := some (.classified e) }, [.removeTrackCall t.id]) := by
      cases s
      cases h
      rfl
    rw [hd]
    exact hmem
  · have hd : (handleDiscard fetchFn (.ok ()) s).1 =
        (nextTrack fetchFn
          { s with error := none,
                   discardedTracks := s.discardedTracks ++ [t] }).1 := by
      cases s
      cases h
      rfl
    rw [hd, nextTrack_fst_discardedTracks]

/-- Witness for C1 at a concrete state: a permission error on the removal of
track 5 leaves the singleton queue, the accumulators and the offset exactly
as they were and surfaces the classified error. -/
theorem c1_witness :
    handleDiscard (fun _ => Except.error (RemoteFailure.jsError "down"))
        (Except.error (RemoteFailure.classified
          { type := .permission, message := "no", status := 403 }))
        { tracks := [⟨5⟩], keptTracks := [⟨1⟩], discardedTracks := [⟨2⟩],
          lastProcessedOffset := 2, totalTracks := 9, error := none } =
      ({ tracks := [⟨5⟩], keptTracks := [⟨1⟩], discardedTracks := [⟨2⟩],
         lastProcessedOffset := 2, totalTracks := 9,
         error := some (.classified
           { type := .permission, message := "no", status := 403 }) },
       [.removeTrackCall 5]) :=
  (c1_discard_failure_preserves_queue _ _ _ ⟨5⟩ [] rfl).1

/-! ## C2 -/

/-- A liked-songs collection holding a single track. -/
def oneTrackEnv : RemoteEnv := { liked := [⟨0⟩], playlists := fun _ => [] }

/-- The engine's refill function over `oneTrackEnv`. -/
def oneTrackFetch : Nat → Except RemoteFailure FetchOk :=
  worldFetch oneTrackEnv SPOTIFY_LIKED_SONGS_PLAYLIST_ID

/-- The queue right after the fresh initial load over `oneTrackEnv`. -/
def c2Start : QueueState := (loadInitialTracks (oneTrackFetch 0) initState).1

/-- The queue after a single `handleKeep` from `c2Start`. -/
def c2After : QueueState := (handleKeep oneTrackFetch c2Start).1

/-- C2 fails on the code: over a one-track liked-songs collection, a fresh
load followed by one keep triggers a refill at `lastProcessedOffset = 1`
whose clamped reverse offset (`max 0 (1 - 30 - 1) = 0`) re-fetches the track
just kept, so its identifier ends up in both `tracks` (pending) and
`keptTracks` — the containers are not disjoint. -/
theorem c2_refill_duplicates_kept_track :
    c2Start.tracks = [⟨0⟩] ∧
    c2After.keptTracks = [⟨0⟩] ∧
    c2After.tracks = [⟨0⟩] ∧
    (⟨0⟩ : Track) ∈ c2After.tracks ∧ (⟨0⟩ : Track) ∈ c2After.keptTracks := by
  decide

/-! ## C3 -/

/-- C3: after every completed keep and after every completed successful
discard, `lastProcessedOffset` equals
`keptTracks.length + discardedTracks.length` on the resulting state. -/
theorem c3_offset_invariant (fetchFn : Nat → Except RemoteFailure FetchOk)
    (s : QueueState) (h : s.tracks ≠ []) :
    ((handleKeep fetchFn s).1.lastProcessedOffset =
      (handleKeep fetchFn s).1.keptTracks.length +
      (handleKeep fetchFn s).1.discardedTracks.length) ∧
    ((handleDiscard fetchFn (.ok ()) s).1.lastProcessedOffset =
      (handleDiscard fetchFn (.ok ()) s).1.keptTracks.length +
      (handleDiscard fetchFn (.ok ()) s).1.discardedTracks.length) := by
  cases hh : s.tracks with
  | nil => exact absurd hh h
  | cons t rest =>
      constructor
      · have e1 : handleKeep fetchFn s =
            nextTrack fetchFn { s with keptTracks := s.keptTracks ++ [t] } := by
          cases s
          cases hh
          rfl
        rw [e1, nextTrack_fst_keptTracks, nextTrack_fst_discardedTracks,
            nextTrack_fst_lastProcessedOffset fetchFn
              { s with keptTracks := s.keptTracks ++ [t] } t rest hh]
      · have e2 : (handleDiscard fetchFn (.ok ()) s).1 =
            (nextTrack fetchFn
              { s with error := none,
                       discardedTracks := s.discardedTracks ++ [t] }).1 := by
          cases s
          cases hh
          rfl
        rw [e2, nextTrack_fst_keptTracks, nextTrack_fst_discardedTracks,
            nextTrack_fst_lastProcessedOffset fetchFn
              { s with error := none,
                       discardedTracks := s.discardedTracks ++ [t] } t rest hh]

/-- Witness for C3: a keep and a successful discard from a concrete
two-track queue both re-establish the offset equation. -/
theorem c3_witness :
    ((handleKeep (fun _ => Except.error (RemoteFailure.jsError "x"))
        { tracks := [⟨7⟩, ⟨8⟩], keptTracks := [⟨1⟩], discardedTracks := [⟨2⟩],
          lastProcessedOffset := 2, totalTracks := 4, error := none }).1.lastProcessedOffset =
      (handleKeep (fun _ => Except.error (RemoteFailure.jsError "x"))
        { tracks := [⟨7⟩, ⟨8⟩], keptTracks := [⟨1⟩], discardedTracks := [⟨2⟩],
          lastProcessedOffset := 2, totalTracks := 4, error := none }).1.keptTracks.length +
      (handleKeep (fun _ => Except.error (RemoteFailure.jsError "x"))
        { tracks := [⟨7⟩, ⟨8⟩], keptTracks := [⟨1⟩], discardedTracks := [⟨2⟩],
          lastProcessedOffset := 2, totalTracks := 4, error := none }).1.discardedTracks.length) ∧
    ((handleDiscard (fun _ => Except.error (RemoteFailure.jsError "x")) (.ok ())
        { tracks := [⟨7⟩, ⟨8⟩], keptTracks := [⟨1⟩], discardedTracks := [⟨2⟩],
          lastProcessedOffset := 2, totalTracks := 4, error := none }).1.lastProcessedOffset =
      (handleDiscard (fun _ => Except.error (RemoteFailure.jsError "x")) (.ok ())
        { tracks := [⟨7⟩, ⟨8⟩], keptTracks := [⟨1⟩], discardedTracks := [⟨2⟩],
          lastProcessedOffset := 2, totalTracks := 4, error := none }).1.keptTracks.length +
      (handleDiscard (fun _ => Except.error (RemoteFailure.jsError "x")) (.ok ())
        { tracks := [⟨7⟩, ⟨8⟩], keptTracks := [⟨1⟩], discardedTracks := [⟨2⟩],
          lastProcessedOffset := 2, totalTracks := 4, error := none }).1.discardedTracks.length) :=
  c3_offset_invariant _ _ (by decide)

/-! ## C4 -/

/-- C4: for every collection, limit and logical offset, a reverse-mode fetch
first probes the remote source with a request of 1 item, computes
`actualOffset = max(0, total - limit - logicalOffset)` from the probed
total, requests the page there, and returns that page reversed together
with the remote total; in particular, over any 7-track collection with
`limit = 3` and `logicalOffset = 0` it requests offset 4 and returns the
items at remote indices `[4, 5, 6]` in reversed (oldest-first) order. -/
theorem c4_reverse_pagination (env : RemoteEnv) (playlistId : String)
    (limit offset : Nat) :
    ((getTracks env playlistId limit offset true).requests =
      [(1, 0),
       (limit,
        (max 0 (((env.collection playlistId).length : Int) - limit - offset)).toNat)]) ∧
    ((getTracks env playlistId limit offset true).items =
      (((env.collection playlistId).drop
          ((max 0 (((env.collection playlistId).length : Int) - limit - offset)).toNat)).take
        limit).reverse) ∧
    ((getTracks env playlistId limit offset true).total =
      (env.collection playlistId).length) ∧
    (∀ t0 t1 t2 t3 t4 t5 t6 : Track,
      getTracks { liked := [t0, t1, t2, t3, t4, t5, t6], playlists := fun _ => [] }
          SPOTIFY_LIKED_SONGS_PLAYLIST_ID 3 0 true =
        { items := [t6, t5, t4], total := 7, requests := [(1, 0), (3, 4)] }) := by
  refine ⟨rfl, rfl, rfl, fun t0 t1 t2 t3 t4 t5 t6 => ?_⟩
  rfl

/-! ## C5 -/

/-- The 501 response that refutes C5 as stated. -/
def resp501 : HttpFailure :=
  { status := 501, statusText := "Not Implemented", retryAfter := none,
    body := .absent }

/-- C5 counterexample: status 501 is a server-side 5xx status, yet the
classifier returns `unknown`, not `network` — the code only maps 500, 502,
503 and 504 to `network`. -/
theorem c5_counterexample_501 :
    500 ≤ resp501.status ∧ resp501.status ≤ 599 ∧
    (parseSpotifyError resp501).type = ErrorType.unknown ∧
    (parseSpotifyError resp501).type ≠ ErrorType.network := by
  decide

/-- C5 amended: the classifier returns `rate_limit` for 429 (with
`retryAfter` from the `Retry-After` header, defaulting to 60),
`authentication` for 401, `permission` for 403, `network` exactly for the
statuses 500, 502, 503 and 504 (other 5xx statuses fall through to
`unknown`), `unknown` with the fixed message "Resource not found." for 404,
and `unknown` carrying the best-effort message extracted from the response
body or status text for every other status; it always records the status
and performs no retry. -/
theorem c5_error_classifier_amended (r : HttpFailure) :
    (r.status = 429 → parseSpotifyError r =
      { type := .rate_limit
        message := "Rate limit exceeded. Please wait before trying again."
        retryAfter := some (r.retryAfter.getD 60)
        status := r.status }) ∧
    (r.status = 401 → (parseSpotifyError r).type = .authentication) ∧
    (r.status = 403 → (parseSpotifyError r).type = .permission) ∧
    (r.status = 404 → (parseSpotifyError r).type = .unknown ∧
      (parseSpotifyError r).message = "Resource not found.") ∧
    ((r.status = 500 ∨ r.status = 502 ∨ r.status = 503 ∨ r.status = 504) →
      (parseSpotifyError r).type = .network) ∧
    (r.status ∉ ([429, 401, 403, 404, 500, 502, 503, 504] : List Nat) →
      parseSpotifyError r =
        { type := .unknown, message := extractMessage r, status := r.status }) ∧
    (parseSpotifyError r).status = r.status := by
  unfold parseSpotifyError
  split_ifs with h1 h2 h3 h4 h5 <;>
    simp_all [List.mem_cons]

/-- Witness for C5 at a concrete 429 response: the retry-after header value
5 is carried through. -/
theorem c5_witness :
    parseSpotifyError
        { status := 429, statusText := "Too Many Requests",
          retryAfter := some 5, body := .absent } =
      { type := .rate_limit
        message := "Rate limit exceeded. Please wait before trying again."
        retryAfter := some 5
        status := 429 } :=
  (c5_error_classifier_amended
      { status := 429, statusText := "Too Many Requests",
        retryAfter := some 5, body := .absent }).1 rfl

theorem loadMoreTracks_snd (fetchFn : Nat → Except RemoteFailure FetchOk)
    (offset : Nat) (s : QueueState) :
    (loadMoreTracks fetchFn offset s).2 =
      [.getTracksCall bufferSize offset true] := by
  unfold loadMoreTracks
  cases fetchFn offset <;> rfl

theorem loadMoreTracks_fst_totalTracks (fetchFn : Nat → Except RemoteFailure FetchOk)
    (offset : Nat) (s : QueueState) (h : s.totalTracks ≠ 0) :
    (loadMoreTracks fetchFn offset s).1.totalTracks = s.totalTracks := by
  unfold loadMoreTracks
  cases fetchFn offset with
  | ok r => simp [h]
  | error f => rfl

/-! ## C6 -/

/-- C6: a failed background refill is swallowed — the queue state, the
error channel included, is exactly unchanged — whereas a failed initial
load does surface an error on the user-visible channel. -/
theorem c6_refill_failure_swallowed (fetchFn : Nat → Except RemoteFailure FetchOk)
    (offset : Nat) (s : QueueState) (f f0 : RemoteFailure)
    (h : fetchFn offset = .error f) :
    (loadMoreTracks fetchFn offset s).1 = s ∧
    (∀ s0 : QueueState, (loadInitialTracks (.error f0) s0).1.error ≠ none) := by
  constructor
  · unfold loadMoreTracks
    rw [h]
  · intro s0
    cases f0 <;> simp [loadInitialTracks]

/-- Witness for C6: a rate-limited refill at offset 4 leaves a concrete
queue state untouched, and any failed initial load sets the error ref. -/
theorem c6_witness :
    (loadMoreTracks
        (fun _ => Except.error (RemoteFailure.classified
          { type := .rate_limit, message := "slow down", retryAfter := some 3,
            status := 429 })) 4
        { tracks := [⟨1⟩], keptTracks := [⟨2⟩], discardedTracks := [⟨3⟩],
          lastProcessedOffset := 2, totalTracks := 6, error := none }).1 =
      { tracks := [⟨1⟩], keptTracks := [⟨2⟩], discardedTracks := [⟨3⟩],
        lastProcessedOffset := 2, totalTracks := 6, error := none } ∧
    (∀ s0 : QueueState,
      (loadInitialTracks (.error (RemoteFailure.jsError "offline")) s0).1.error ≠
        none) :=
  c6_refill_failure_swallowed _ 4 _ _ (RemoteFailure.jsError "offline") rfl

/-! ## C7 -/

/-- C7: a completed (successful) refill only appends the fetched items to
the tail of the pending queue: whatever was already queued stays, in order
and without duplication, as the exact prefix of the new queue. -/
theorem c7_refill_append_only (fetchFn : Nat → Except RemoteFailure FetchOk)
    (offset : Nat) (s : QueueState) (items : List Track) (total : Nat)
    (h : fetchFn offset = .ok ⟨items, total⟩) :
    (loadMoreTracks fetchFn offset s).1.tracks = s.tracks ++ items := by
  unfold loadMoreTracks
  rw [h]

/-- Witness for C7: `pending = [A, B]` and a refill returning `[C, D]`
yield `pending = [A, B, C, D]`. -/
theorem c7_witness :
    (loadMoreTracks (fun _ => Except.ok ⟨[⟨3⟩, ⟨4⟩], 4⟩) 2
        { tracks := [⟨1⟩, ⟨2⟩], keptTracks := [], discardedTracks := [],
          lastProcessedOffset := 0, totalTracks := 4, error := none }).1.tracks =
      [⟨1⟩, ⟨2⟩, ⟨3⟩, ⟨4⟩] :=
  c7_refill_append_only _ 2 _ [⟨3⟩, ⟨4⟩] 4 rfl

/-! ## C8 -/

/-- C8: opening with a persisted snapshot restores all five fields verbatim
and triggers a refill at the restored `lastProcessedOffset` exactly when the
restored queue is below the refill threshold (the refill, when triggered,
only appends to the restored queue and preserves a non-zero restored
total); with no snapshot, a successful fresh fetch at offset 0 populates
the queue, sets `totalTracks` from the response and `lastProcessedOffset`
to 0. -/
theorem c8_resume_and_fresh_init (fetchFn : Nat → Except RemoteFailure FetchOk)
    (fetch0 : Except RemoteFailure FetchOk) (st : CleaningState)
    (items : List Track) (total : Nat) :
    (minTracksThreshold ≤ st.queueTracks.length →
      onMounted fetchFn fetch0 (some st) =
        ({ tracks := st.queueTracks, keptTracks := st.keptTracks,
           discardedTracks := st.discardedTracks,
           lastProcessedOffset := st.lastProcessedOffset,
           totalTracks := st.totalTracks, error := none }, [])) ∧
    (st.queueTracks.length < minTracksThreshold →
      (onMounted fetchFn fetch0 (some st)).2 =
        [.getTracksCall bufferSize st.lastProcessedOffset true] ∧
      (onMounted fetchFn fetch0 (some st)).1.keptTracks = st.keptTracks ∧
      (onMounted fetchFn fetch0 (some st)).1.discardedTracks = st.discardedTracks ∧
      (onMounted fetchFn fetch0 (some st)).1.lastProcessedOffset =
        st.lastProcessedOffset ∧
      (st.totalTracks ≠ 0 →
        (onMounted fetchFn fetch0 (some st)).1.totalTracks = st.totalTracks) ∧
      (∀ its tot, fetchFn st.lastProcessedOffset = .ok ⟨its, tot⟩ →
        (onMounted fetchFn fetch0 (some st)).1.tracks = st.queueTracks ++ its) ∧
      (∀ f, fetchFn st.lastProcessedOffset = .error f →
        (onMounted fetchFn fetch0 (some st)).1.tracks = st.queueTracks)) ∧
    (onMounted fetchFn (.ok ⟨items, total⟩) none =
      ({ tracks := items, keptTracks := [], discardedTracks := [],
         lastProcessedOffset := 0, totalTracks := total, error := none },
       [.getTracksCall bufferSize 0 true])) := by
  refine ⟨?_, ?_, rfl⟩
  · intro h
    unfold onMounted
    dsimp only
    rw [if_neg (Nat.not_lt.mpr h)]
    rfl
  · intro h
    unfold onMounted
    dsimp only
    rw [if_pos h]
    refine ⟨loadMoreTracks_snd _ _ _, loadMoreTracks_fst_keptTracks _ _ _,
            loadMoreTracks_fst_discardedTracks _ _ _,
            loadMoreTracks_fst_lastProcessedOffset _ _ _,
            fun hz => loadMoreTracks_fst_totalTracks _ _ _ hz,
            fun its tot hfetch => ?_, fun f hfetch => ?_⟩
    · unfold loadMoreTracks
      rw [hfetch]
    · unfold loadMoreTracks
      rw [hfetch]

/-- Witness for C8: a snapshot with a 10-track queue (at the refill
threshold) is restored verbatim with no refill call. -/
theorem c8_witness :
    onMounted (fun _ => Except.error (RemoteFailure.jsError "x"))
        (Except.error (RemoteFailure.jsError "y"))
        (some { keptTracks := [⟨1⟩], discardedTracks := [⟨2⟩],
                queueTracks := List.replicate 10 ⟨0⟩,
                lastProcessedOffset := 2, totalTracks := 12 }) =
      ({ tracks := List.replicate 10 ⟨0⟩, keptTracks := [⟨1⟩],
         discardedTracks := [⟨2⟩], lastProcessedOffset := 2,
         totalTracks := 12, error := none }, []) :=
  (c8_resume_and_fresh_init _ _ _ [] 0).1 (by decide)

/-! ## C9 -/

/-- C9: on a non-empty queue, `handleRetry` performs exactly the state
transition of `handleDiscard` on the still-current front track — the same
removal call, the same success and failure behaviour; on an empty queue it
issues no remote call at all. -/
theorem c9_retry_equals_discard (fetchFn : Nat → Except RemoteFailure FetchOk)
    (removal : Except RemoteFailure Unit) (s : QueueState) :
    (s.tracks ≠ [] →
      handleRetry fetchFn removal s = handleDiscard fetchFn removal s) ∧
    (s.tracks = [] → (handleRetry fetchFn removal s).2 = []) := by
  constructor
  · intro h
    cases hh : s.tracks with
    | nil => exact absurd hh h
    | cons t rest =>
        cases s
        cases hh
        unfold handleRetry
        simp only [List.length_cons]
        rw [if_pos (Nat.succ_pos _)]
        cases removal <;> rfl
  · intro h
    cases s
    cases h
    rfl

/-- Witness for C9: retrying on a concrete one-track queue with a failing
removal call coincides with discarding directly. -/
theorem c9_witness :
    handleRetry (fun _ => Except.error (RemoteFailure.jsError "x"))
        (Except.error (RemoteFailure.classified
          { type := .network, message := "down", status := 503 }))
        { tracks := [⟨6⟩], keptTracks := [], discardedTracks := [],
          lastProcessedOffset := 0, totalTracks := 1,
          error := some (.msg "old") } =
      handleDiscard (fun _ => Except.error (RemoteFailure.jsError "x"))
        (Except.error (RemoteFailure.classified
          { type := .network, message := "down", status := 503 }))
        { tracks := [⟨6⟩], keptTracks := [], discardedTracks := [],
          lastProcessedOffset := 0, totalTracks := 1,
          error := some (.msg "old") } :=
  (c9_retry_equals_discard _ _ _).1 (by decide)

/-! ## C10 -/

/-- C10: discarding on an empty queue is a total no-op: it issues no remote
call and every field of the state — `tracks`, `keptTracks`,
`discardedTracks`, `lastProcessedOffset`, `totalTracks` and the surfaced
error — is unchanged. -/
theorem c10_discard_empty_noop (fetchFn : Nat → Except RemoteFailure FetchOk)
    (removal : Except RemoteFailure Unit) (s : QueueState)
    (h : s.tracks = []) :
    handleDiscard fetchFn removal s = (s, []) := by
  cases s
  cases h
  rfl

/-- Witness for C10: an empty-queue discard leaves even a previously
surfaced error in place and issues no call. -/
theorem c10_witness :
    handleDiscard (fun _ => Except.error (RemoteFailure.jsError "x"))
        (Except.ok ())
        { tracks := [], keptTracks := [⟨1⟩], discardedTracks := [⟨2⟩],
          lastProcessedOffset := 2, totalTracks := 5,
          error := some (.msg "boom") } =
      ({ tracks := [], keptTracks := [⟨1⟩], discardedTracks := [⟨2⟩],
         lastProcessedOffset := 2, totalTracks := 5,
         error := some (.msg "boom") }, []) :=
  c10_discard_empty_noop _ _ _ rfl

end TrackToss
